import Mathlib

/-!
Verification of the panoramic-image evaluation app (`src/app.py`).

The app is a Streamlit script: every user interaction reruns `main()` top to
bottom against a persistent `st.session_state` dictionary.  We embed the
session state, the sidebar navigation logic, the answer-reset guard and the
submit block as pure Lean functions, with the external world (file system,
clock, storage success/failure, user input) passed in explicitly.
-/

namespace PanoEval

/-- A value stored in `st.session_state` under a widget key: Likert radios
hold ints, text/select widgets hold strings, the multiselect holds a list of
strings (in user selection order, as `st.multiselect` returns it). -/
inductive Value
  | int (n : Int)
  | str (s : String)
  | strList (l : List String)
  deriving DecidableEq, Repr

/-- Python `sep.join(xs)`: elements concatenated in list order with `sep`
between consecutive elements (used at `app.py:373` as `"; ".join(...)`). -/
def pyJoin (sep : String) : List String → String
  | [] => ""
  | [x] => x
  | x :: y :: rest => x ++ sep ++ pyJoin sep (y :: rest)

/-- Index (from the front) of the last occurrence of `'.'` in a character
list, as Python `str.rfind('.')` computes it (but `Option` instead of -1). -/
def rfindDot : List Char → Option Nat
  | [] => none
  | c :: rest =>
    match rfindDot rest with
    | some j => some (j + 1)
    | none => if c = '.' then some 0 else none

/-- Python `pathlib.PurePath.suffix` for a plain file name: the substring
from the last dot, provided that dot is neither the first nor the last
character; otherwise the empty string. -/
def pySuffix (name : String) : String :=
  match rfindDot name.toList with
  | some i =>
    if 0 < i ∧ i < name.toList.length - 1 then String.mk (name.toList.drop i) else ""
  | none => ""

/-- A directory entry as seen by `Path.iterdir()`: its file name and whether
it is a regular file. -/
structure DirEntry where
  name : String
  isFile : Bool
  deriving DecidableEq, Repr

/-- The extension allow-list `exts` of `get_image_files` (`app.py:21`). -/
def IMG_EXTS : List String := [".png", ".jpg", ".jpeg"]

/-- Python `str.lower`, character by character (the allow-list compared
against is ASCII, where the two agree). -/
def pyLower (s : String) : String :=
  String.mk (s.toList.map Char.toLower)

/-- The filter of `get_image_files` (`app.py:22-23`):
`p.is_file() and p.suffix.lower() in exts`. -/
def matchesExt (e : DirEntry) : Bool :=
  e.isFile && IMG_EXTS.contains (pyLower (pySuffix e.name))

/-- `get_image_files` (`app.py:20-23`): keep the entries that are files with
an accepted extension (case-insensitively) and sort by file name.  Entries of
one directory share the parent path, so Python's sort of `Path` objects is
the lexicographic sort of the file names. -/
def get_image_files (entries : List DirEntry) : List String :=
  List.insertionSort (· ≤ ·) ((entries.filter matchesExt).map (·.name))

/-- The error taxonomy of the spec for navigation/loading. -/
inductive NavError
  | DirectoryNotFound
  | EmptyImageSet
  | UnknownImage
  deriving DecidableEq, Repr

/-- Lines `app.py:80-87`: `st.stop()` on a missing directory
(`DirectoryNotFound`) or an empty filtered listing (`EmptyImageSet`);
otherwise the sorted image list is used for the rest of the render. -/
def loadImages (isDirectory : Bool) (entries : List DirEntry) :
    Except NavError (List String) :=
  if !isDirectory then .error .DirectoryNotFound
  else
    let files := get_image_files entries
    if files.isEmpty then .error .EmptyImageSet else .ok files

/-- `app.py:90-92`: `max(0, min(current_index, len(image_files) - 1))`.
Python ints are modelled by `Int`. -/
def clamp (index : Int) (setSize : Nat) : Int :=
  max 0 (min index ((setSize : Int) - 1))

/-- The Prev button body (`app.py:97-99`): decrement only when positive. -/
def prevOp (i : Int) : Int :=
  if i > 0 then i - 1 else i

/-- The Next button body (`app.py:101-103`): increment only below the last
index. -/
def nextOp (i : Int) (setSize : Nat) : Int :=
  if i < (setSize : Int) - 1 then i + 1 else i

/-- Python `list.index(x)`: position of the first occurrence, or an error
(`ValueError`) when absent, modelled as `none` (`app.py:119`). -/
def pyListIndex (l : List String) (x : String) : Option Nat :=
  match l with
  | [] => none
  | a :: rest => if a = x then some 0 else (pyListIndex rest x).map (· + 1)

/-- `jumpTo` of the spec, from `app.py:113-119`: the selectbox assignment
`current_index = names.index(selected_name)`.  An absent name makes
`names.index` raise, which surfaces as the spec's `UnknownImage`. -/
def jumpTo (names : List String) (name : String) : Except NavError Int :=
  match pyListIndex names name with
  | some j => .ok (j : Int)
  | none => .error .UnknownImage

/-- `ANSWER_KEYS` (`app.py:36-44`): the session-state keys deleted when the
image changes or a submission succeeds. -/
def ANSWER_KEYS : List String :=
  ["q1", "q2", "q3", "q4", "q5",
   "q6", "q7", "q8", "q9", "q10",
   "q11", "q12", "q13", "q14",
   "comp_quality", "aspects_better", "aspects_improve",
   "strengths", "limitations", "recommendations", "willing_future"]

/-- The respondent-metadata widget keys (`app.py:175-199`): these are session
state too but are NOT listed in `ANSWER_KEYS`. -/
def METADATA_KEYS : List String :=
  ["resp_name", "clinic", "specialization", "years_exp", "avg_cases"]

/-- One turn of the loop body of `reset_answers`:
`if k in st.session_state: del st.session_state[k]`, on a map where a missing
key is `none` (deleting an absent key is the identity there). -/
def delKey (w : String → Option Value) (k : String) : String → Option Value :=
  fun k2 => if k2 = k then none else w k2

/-- `reset_answers` (`app.py:47-50`): delete every key of `ANSWER_KEYS` from
the widget part of the session state. -/
def reset_answers (w : String → Option Value) : String → Option Value :=
  ANSWER_KEYS.foldl delKey w

/-- The AnswerSet of the spec: the restriction of the widget map to the
question keys. -/
def answerSet (w : String → Option Value) : String → Option Value :=
  fun k => if ANSWER_KEYS.contains k then w k else none

/-- `st.session_state` as used by the app: the three keys set up in
`init_session_state` (`app.py:26-32`) plus the widget-backed keys
(answers and respondent metadata), modelled as a map. -/
structure SessionState where
  current_index : Int
  image_dir : String
  last_image_name : Option String
  widgets : String → Option Value

/-- `init_session_state` (`app.py:26-32`) on a fresh session, with the
default directory literal standing in for the path computed from
`__file__`. -/
def initState : SessionState :=
  { current_index := 0
    image_dir := "images"
    last_image_name := none
    widgets := fun _ => none }

/-- The reset guard at `app.py:141-143`: when the displayed image's name
differs from `last_image_name`, clear the answers and record the new name;
otherwise leave the state alone. -/
def onImageDisplayed (s : SessionState) (imageName : String) : SessionState :=
  if s.last_image_name ≠ some imageName then
    { s with widgets := reset_answers s.widgets, last_image_name := some imageName }
  else s

/-- The user-controlled part of one sidebar render: whether each button
reported a click, and the selectbox value when the user changed it
(`none` models an untouched selectbox, which then shows the entry at the
current index). -/
structure NavInput where
  prevClicked : Bool
  nextClicked : Bool
  jumpSelection : Option String

/-- The button part of the sidebar navigation (`app.py:90-103`): clamp the
stored index, then apply the Prev and Next button bodies. -/
def navButtons (names : List String) (i : Int) (inp : NavInput) : Int :=
  let i1 := clamp i names.length
  let i2 := if inp.prevClicked then prevOp i1 else i1
  if inp.nextClicked then nextOp i2 names.length else i2

/-- Sidebar navigation (`app.py:90-119`) for one rerun: the buttons, then the
selectbox assignment `current_index = names.index(selected_name)`.  An
untouched selectbox (no key, `index=current_index`) shows the entry at the
current index, so `selected_name` defaults to it.  When `names.index` raises
(selection not in `names`), the rerun dies with the index as the buttons
left it, which the `Option.elim` fallback reproduces. -/
def navCycle (names : List String) (i : Int) (inp : NavInput) : Int :=
  let i3 := navButtons names i inp
  let sel := inp.jumpSelection.getD (names.getD i3.toNat "")
  (pyListIndex names sel).elim i3 (fun j => (j : Int))

/-- `current_image = image_files[current_index]` (`app.py:121`), after the
navigation updates; its `.name` is the displayed image identifier. -/
def displayedImage (names : List String) (i : Int) (inp : NavInput) : String :=
  names.getD (navCycle names i inp).toNat ""

/-- One row of `evaluations.csv`.  Only `timestamp` and `image_filename`
are singled out (the claims inspect them); the remaining columns of the
record dict (`app.py:347-380`) are the association list `fields`. -/
structure Record where
  timestamp : Nat
  image_filename : String
  fields : List (String × Value)
  deriving DecidableEq, Repr

/-- Read a text widget's session value; Streamlit text inputs default to
`""` when the key is absent. -/
def getStr (w : String → Option Value) (k : String) : String :=
  match w k with
  | some (.str s) => s
  | _ => ""

/-- Read a radio/selectbox value with its widget default (`st.radio` and
`st.selectbox` default to their first option when the key is absent). -/
def getStrD (w : String → Option Value) (k : String) (d : String) : String :=
  match w k with
  | some (.str s) => s
  | _ => d

/-- Read a Likert radio value; options are `[1,2,3,4,5]` so the widget
default is `1`. -/
def getLikert (w : String → Option Value) (k : String) : Int :=
  match w k with
  | some (.int n) => n
  | _ => 1

/-- Read the multiselect value; its widget default is the empty list. -/
def getStrList (w : String → Option Value) (k : String) : List String :=
  match w k with
  | some (.strList l) => l
  | _ => []

/-- The record dict built in the submit block (`app.py:347-380`), with the
clock reading `t` standing in for `datetime.now().isoformat()` (ISO-8601
strings of one clock compare like the instants they denote). -/
def mkRecord (t : Nat) (imageName : String) (w : String → Option Value) : Record :=
  { timestamp := t
    image_filename := imageName
    fields :=
      [("name", .str (getStr w "resp_name")),
       ("clinic", .str (getStr w "clinic")),
       ("specialization", .str (getStrD w "specialization" "")),
       ("years_experience", .str (getStrD w "years_exp" "")),
       ("avg_pano_cases_per_week", .str (getStrD w "avg_cases" "")),
       ("q1_realistic", .int (getLikert w "q1")),
       ("q2_anatomy_visible", .int (getLikert w "q2")),
       ("q3_contrast_brightness", .int (getLikert w "q3")),
       ("q4_resolution", .int (getLikert w "q4")),
       ("q5_artifacts", .int (getLikert w "q5")),
       ("q6_landmarks", .int (getLikert w "q6")),
       ("q7_confidence_diagnosis", .int (getLikert w "q7")),
       ("q8_treatment_planning", .int (getLikert w "q8")),
       ("q9_symmetry_arch", .int (getLikert w "q9")),
       ("q10_alignment", .int (getLikert w "q10")),
       ("q11_reduces_exposures", .int (getLikert w "q11")),
       ("q12_workflow_efficient", .int (getLikert w "q12")),
       ("q13_integrate_practice", .int (getLikert w "q13")),
       ("q14_beneficial_no_pano", .int (getLikert w "q14")),
       ("comparative_quality", .str (getStrD w "comp_quality" "Much Worse")),
       ("aspects_better", .str (pyJoin "; " (getStrList w "aspects_better"))),
       ("aspects_need_improvement", .str (getStr w "aspects_improve")),
       ("strengths", .str (getStr w "strengths")),
       ("limitations", .str (getStr w "limitations")),
       ("recommendations", .str (getStr w "recommendations")),
       ("willing_future_studies", .str (getStrD w "willing_future" "Yes"))] }

/-- `save_evaluation` (`app.py:53-56`): append exactly one row to the CSV
log (the one-row DataFrame written with `mode="a"`). -/
def save_evaluation (log : List Record) (r : Record) : List Record :=
  log ++ [r]

/-- Outcome of the submit block for one rerun. -/
inductive SubmitResult
  | notClicked
  | saved
  | ioError
  deriving DecidableEq, Repr

/-- The submit block (`app.py:346-389`).  `ioFail` says whether the CSV
append raises `IOError`.  On failure the exception propagates out of the
rerun before `reset_answers()` on line 389 runs, so session state and log
are returned untouched; on success the row is appended and then the answer
keys are cleared.  The image index is never touched here. -/
def submitStep (s : SessionState) (log : List Record) (imageName : String)
    (t : Nat) (clicked ioFail : Bool) :
    SessionState × List Record × SubmitResult :=
  if clicked then
    let r := mkRecord t imageName s.widgets
    if ioFail then (s, log, .ioError)
    else ({ s with widgets := reset_answers s.widgets },
          save_evaluation log r, .saved)
  else (s, log, .notClicked)

/-- The whole external input to one rerun of `main()`: the directory text
box, the navigation clicks, the widget values the user entered during the
interaction, the submit click, whether the CSV append would fail, and the
clock reading. -/
structure StepInput where
  dirInput : String
  nav : NavInput
  updates : List (String × Value)
  submitClicked : Bool
  ioFail : Bool
  time : Nat

/-- Store the user's widget inputs of this interaction into session state
(Streamlit writes each widget's value under its key). -/
def applyUpdates (w : String → Option Value) (us : List (String × Value)) :
    String → Option Value :=
  us.foldl (fun w kv => fun k => if k = kv.1 then some kv.2 else w k) w

/-- One rerun of `main()` given an already loaded image list `names`
(`app.py:90-389`): navigation, the reset-on-image-change guard, the user's
widget inputs, then the submit block. -/
def stepCycle (names : List String) (s : SessionState) (log : List Record)
    (inp : StepInput) : SessionState × List Record :=
  let i := navCycle names s.current_index inp.nav
  let img := names.getD i.toNat ""
  let s1 := onImageDisplayed { s with current_index := i } img
  let s2 := { s1 with widgets := applyUpdates s1.widgets inp.updates }
  let out := submitStep s2 log img inp.time inp.submitClicked inp.ioFail
  (out.1, out.2.1)

/-- One rerun of `main()` from the top (`app.py:72-389`): the directory text
box writes `image_dir` (line 78) before the `is_dir` check, then a load
failure calls `st.stop()` — nothing further renders and neither the answers
nor the log can change — and otherwise the rest of the cycle runs. -/
def renderCycle (isDirectory : Bool) (entries : List DirEntry)
    (s : SessionState) (log : List Record) (inp : StepInput) :
    SessionState × List Record :=
  let s0 := { s with image_dir := inp.dirInput }
  match loadImages isDirectory entries with
  | .error _ => (s0, log)
  | .ok names => stepCycle names s0 log inp

/-- A whole session: fold the rerun over the user's interactions, with a
fixed directory contents (the claims about a session quantify over its
interactions). -/
def runSession (isDirectory : Bool) (entries : List DirEntry)
    (s : SessionState) (log : List Record) (steps : List StepInput) :
    SessionState × List Record :=
  steps.foldl (fun sl inp => renderCycle isDirectory entries sl.1 sl.2 inp) (s, log)

/-! ### Helper lemmas -/

/-- Folding `delKey` over any key list deletes exactly those keys. -/
lemma foldl_delKey_apply (l : List String) (w : String → Option Value) (k : String) :
    l.foldl delKey w k = if k ∈ l then none else w k := by
  induction l generalizing w with
  | nil => simp
  | cons a rest ih =>
    simp only [List.foldl_cons, ih, delKey, List.mem_cons]
    by_cases hka : k = a <;> by_cases hkr : k ∈ rest <;> simp [hka, hkr]

/-- `reset_answers` pointwise: answer keys become absent, others are kept. -/
lemma reset_answers_apply (w : String → Option Value) (k : String) :
    reset_answers w k = if k ∈ ANSWER_KEYS then none else w k :=
  foldl_delKey_apply ANSWER_KEYS w k

/-- After `reset_answers`, the AnswerSet is the empty mapping. -/
lemma answerSet_reset (w : String → Option Value) :
    answerSet (reset_answers w) = fun _ => none := by
  funext k
  simp only [answerSet, reset_answers_apply]
  by_cases h : k ∈ ANSWER_KEYS <;> simp [h]

/-- A successful `pyListIndex` lookup is a position of the element. -/
lemma pyListIndex_some {l : List String} {x : String} {j : Nat}
    (h : pyListIndex l x = some j) : j < l.length ∧ l[j]? = some x := by
  induction l generalizing j with
  | nil => simp [pyListIndex] at h
  | cons a rest ih =>
    by_cases hax : a = x
    · simp [pyListIndex, hax] at h
      subst h
      simp [hax]
    · simp only [pyListIndex, hax, if_false, Option.map_eq_some'] at h
      obtain ⟨j0, hj0, rfl⟩ := h
      obtain ⟨hlt, hget⟩ := ih hj0
      exact ⟨by simpa using hlt, by simpa using hget⟩

/-- A member is always found by `pyListIndex`. -/
lemma pyListIndex_of_mem {l : List String} {x : String} (h : x ∈ l) :
    ∃ j, pyListIndex l x = some j := by
  induction l with
  | nil => simp at h
  | cons a rest ih =>
    by_cases hax : a = x
    · exact ⟨0, by simp [pyListIndex, hax]⟩
    · have hx : x ∈ rest := by
        rcases List.mem_cons.mp h with h1 | h1
        · exact absurd h1.symm hax
        · exact h1
      obtain ⟨j, hj⟩ := ih hx
      exact ⟨j + 1, by simp [pyListIndex, hax, hj]⟩

/-- A non-member is never found by `pyListIndex`. -/
lemma pyListIndex_of_not_mem {l : List String} {x : String} (h : x ∉ l) :
    pyListIndex l x = none := by
  induction l with
  | nil => rfl
  | cons a rest ih =>
    have hax : a ≠ x := fun he => h (he ▸ List.mem_cons_self a rest)
    have hx : x ∉ rest := fun hr => h (List.mem_cons_of_mem a hr)
    simp [pyListIndex, hax, ih hx]

/-- On a duplicate-free list, `pyListIndex` returns THE position of the
element. -/
lemma pyListIndex_nodup {l : List String} {x : String} {j : Nat}
    (hd : l.Nodup) (hj : l[j]? = some x) : pyListIndex l x = some j := by
  induction l generalizing j with
  | nil => simp at hj
  | cons a rest ih =>
    rcases j with _ | j0
    · simp only [List.getElem?_cons_zero, Option.some.injEq] at hj
      simp [pyListIndex, hj]
    · simp only [List.getElem?_cons_succ] at hj
      have hxr : x ∈ rest := by
        obtain ⟨hlt, rfl⟩ := List.getElem?_eq_some.mp hj
        exact List.getElem_mem hlt
      have hax : a ≠ x := by
        rintro rfl
        exact (List.nodup_cons.mp hd).1 hxr
      have := ih (List.nodup_cons.mp hd).2 hj
      simp [pyListIndex, hax, this]

/-- `clamp` lands in `[0, n)` for any non-zero set size. -/
lemma clamp_mem {i : Int} {n : Nat} (hn : 0 < n) :
    0 ≤ clamp i n ∧ clamp i n < n := by
  simp only [clamp, Int.max_def, Int.min_def]
  split_ifs <;> omega

/-- The button phase keeps the index in `[0, n)`. -/
lemma navButtons_mem (names : List String) (i : Int) (inp : NavInput)
    (h : names ≠ []) :
    0 ≤ navButtons names i inp ∧ navButtons names i inp < names.length := by
  have hn : 0 < names.length := List.length_pos.mpr h
  obtain ⟨h0, h1⟩ := clamp_mem (i := i) hn
  simp only [navButtons, prevOp, nextOp]
  split_ifs <;> omega

/-- The whole navigation cycle keeps the index in `[0, n)`. -/
lemma navCycle_mem (names : List String) (i : Int) (inp : NavInput)
    (h : names ≠ []) :
    0 ≤ navCycle names i inp ∧ navCycle names i inp < names.length := by
  obtain ⟨h0, h1⟩ := navButtons_mem names i inp h
  simp only [navCycle]
  cases hfind : pyListIndex names (inp.jumpSelection.getD
      (names.getD (navButtons names i inp).toNat "")) with
  | none => simpa [Option.elim] using ⟨h0, h1⟩
  | some j =>
    obtain ⟨hlt, _⟩ := pyListIndex_some hfind
    simp only [Option.elim]
    omega

/-- The submit block never touches `current_index` or `last_image_name`. -/
lemma submitStep_index (s : SessionState) (log : List Record)
    (imageName : String) (t : Nat) (clicked ioFail : Bool) :
    (submitStep s log imageName t clicked ioFail).1.current_index = s.current_index ∧
    (submitStep s log imageName t clicked ioFail).1.last_image_name = s.last_image_name := by
  simp only [submitStep]
  split_ifs <;> exact ⟨rfl, rfl⟩

/-- After one rerun the stored index is exactly the navigation cycle's
output. -/
lemma stepCycle_index (names : List String) (s : SessionState)
    (log : List Record) (inp : StepInput) :
    (stepCycle names s log inp).1.current_index =
      navCycle names s.current_index inp.nav := by
  simp only [stepCycle]
  have h := submitStep_index
    (onImageDisplayed { s with current_index := navCycle names s.current_index inp.nav }
      (names.getD (navCycle names s.current_index inp.nav).toNat ""))
  simp only [onImageDisplayed] at *
  split_ifs <;> simp [submitStep, applyUpdates] <;> split_ifs <;> rfl

/-- One rerun appends either nothing or exactly one record, timestamped with
this rerun's clock reading. -/
lemma renderCycle_log (d : Bool) (entries : List DirEntry) (s : SessionState)
    (log : List Record) (inp : StepInput) :
    (renderCycle d entries s log inp).2 = log ∨
    ∃ r, (renderCycle d entries s log inp).2 = log ++ [r] ∧
      r.timestamp = inp.time := by
  simp only [renderCycle]
  cases h : loadImages d entries with
  | error e => exact Or.inl rfl
  | ok names =>
    simp only [stepCycle, submitStep, save_evaluation]
    split_ifs
    · exact Or.inl rfl
    · exact Or.inr ⟨_, rfl, rfl⟩
    · exact Or.inl rfl

/-- Unfold one interaction of a session run. -/
lemma runSession_cons (d : Bool) (entries : List DirEntry) (s : SessionState)
    (log : List Record) (st : StepInput) (rest : List StepInput) :
    runSession d entries s log (st :: rest) =
      runSession d entries (renderCycle d entries s log st).1
        (renderCycle d entries s log st).2 rest := rfl

/-- Timestamp monotonicity of a session run: if the clock readings of the
interactions are non-decreasing, so are the timestamps of the log the run
produces. -/
lemma runSession_pairwise (d : Bool) (entries : List DirEntry) :
    ∀ (steps : List StepInput) (s : SessionState) (log : List Record),
      List.Pairwise (· ≤ ·) (steps.map (·.time)) →
      List.Pairwise (· ≤ ·) (log.map (·.timestamp)) →
      (∀ r ∈ log, ∀ st ∈ steps, r.timestamp ≤ st.time) →
      List.Pairwise (· ≤ ·)
        (((runSession d entries s log steps).2).map (·.timestamp)) := by
  intro steps
  induction steps with
  | nil => intro s log _ hlog _; simpa [runSession] using hlog
  | cons st rest ih =>
    intro s log hsteps hlog hcross
    rw [runSession_cons]
    have hrest : List.Pairwise (· ≤ ·) (rest.map (·.time)) :=
      (List.pairwise_cons.mp hsteps).2
    have hhead : ∀ t ∈ rest.map (·.time), st.time ≤ t :=
      (List.pairwise_cons.mp hsteps).1
    rcases renderCycle_log d entries s log st with hsame | ⟨r, hr, hts⟩
    · refine ih _ _ hrest (by rw [hsame]; exact hlog) ?_
      intro r0 hr0 st' hst'
      rw [hsame] at hr0
      exact hcross r0 hr0 st' (List.mem_cons_of_mem st hst')
    · refine ih _ _ hrest ?_ ?_
      · rw [hr, List.map_append]
        refine List.pairwise_append.mpr ⟨hlog, by simp, ?_⟩
        intro a ha b hb
        simp only [List.mem_map] at ha
        obtain ⟨ra, hra, rfl⟩ := ha
        simp only [List.map_cons, List.map_nil, List.mem_singleton] at hb
        subst hb
        rw [hts]
        exact hcross ra hra st (List.mem_cons_self st rest)
      · intro r0 hr0 st' hst'
        rw [hr] at hr0
        rcases List.mem_append.mp hr0 with h0 | h0
        · exact hcross r0 h0 st' (List.mem_cons_of_mem st hst')
        · rw [List.mem_singleton.mp h0, hts]
          exact hhead st'.time (List.mem_map_of_mem (·.time) hst')

/-- `get_image_files` is a permutation of the matching entries' names. -/
lemma get_image_files_perm (entries : List DirEntry) :
    (get_image_files entries).Perm ((entries.filter matchesExt).map (·.name)) :=
  List.perm_insertionSort _ _

/-- `get_image_files` is sorted by file name. -/
lemma get_image_files_sorted (entries : List DirEntry) :
    List.Sorted (· ≤ ·) (get_image_files entries) :=
  List.sorted_insertionSort _ _

/-- The listing is empty exactly when no entry matches the filter. -/
lemma get_image_files_eq_nil (entries : List DirEntry) :
    get_image_files entries = [] ↔ entries.filter matchesExt = [] := by
  constructor
  · intro h
    have := (get_image_files_perm entries).length_eq
    rw [h] at this
    simp only [List.length_nil, List.length_map] at this
    exact List.eq_nil_of_length_eq_zero this.symm
  · intro h
    have := (get_image_files_perm entries).length_eq
    rw [h] at this
    simp only [List.map_nil, List.length_nil] at this
    exact List.eq_nil_of_length_eq_zero this

/-- The inner loop of `String.intercalate` agrees with the Python join. -/
lemma intercalate_go_eq_pyJoin (sep : String) :
    ∀ (as : List String) (acc : String),
      String.intercalate.go acc sep as = pyJoin sep (acc :: as) := by
  intro as
  induction as with
  | nil => intro acc; rfl
  | cons a rest ih =>
    intro acc
    rw [String.intercalate.go, ih]
    cases rest with
    | nil => simp [pyJoin]
    | cons b r2 => simp [pyJoin, String.append_assoc]

/-- The Python join is `String.intercalate`: elements concatenated in list
order with the separator between consecutive elements. -/
lemma pyJoin_eq_intercalate (sep : String) (l : List String) :
    pyJoin sep l = String.intercalate sep l := by
  cases l with
  | nil => rfl
  | cons a as => rw [String.intercalate, intercalate_go_eq_pyJoin]

/-! ### Claim theorems -/

/-- C1: On each render cycle, if the currently displayed image identifier
differs from the last-recorded one, the reset guard empties the AnswerSet
(every answer key becomes unset) and records the new identifier; if the
identifiers are equal, the session state is left unchanged. -/
theorem image_change_resets_answers (s : SessionState) (imageName : String) :
    (s.last_image_name ≠ some imageName →
      answerSet (onImageDisplayed s imageName).widgets = (fun _ => none) ∧
      (onImageDisplayed s imageName).last_image_name = some imageName) ∧
    (s.last_image_name = some imageName → onImageDisplayed s imageName = s) := by
  constructor
  · intro h
    unfold onImageDisplayed
    rw [if_pos h]
    exact ⟨answerSet_reset s.widgets, rfl⟩
  · intro h
    simp [onImageDisplayed, h]

/-- Witness for C1 at a concrete state holding `q1 = 5` on image `a.png`
while `b.jpg` is displayed. -/
theorem image_change_resets_answers_witness :
    ({ current_index := 0, image_dir := "images", last_image_name := some "a.png",
       widgets := fun k => if k = "q1" then some (.int 5) else none } :
        SessionState).last_image_name ≠ some "b.jpg" ∧
    (answerSet (onImageDisplayed
        { current_index := 0, image_dir := "images", last_image_name := some "a.png",
          widgets := fun k => if k = "q1" then some (.int 5) else none } "b.jpg").widgets =
      (fun _ => none) ∧
     (onImageDisplayed
        { current_index := 0, image_dir := "images", last_image_name := some "a.png",
          widgets := fun k => if k = "q1" then some (.int 5) else none } "b.jpg").last_image_name =
      some "b.jpg") :=
  ⟨by decide, (image_change_resets_answers _ "b.jpg").1 (by decide)⟩

/-- C3: When the CSV append raises `IOError`, the submit block leaves the
whole session state and the log untouched and reports the error (the
exception propagates before `reset_answers` runs), so the very same
submission succeeds on a retry, appending the record built from the same
preserved answers. -/
theorem submit_io_failure_preserves_answers (s : SessionState) (log : List Record)
    (imageName : String) (t t2 : Nat) :
    submitStep s log imageName t true true = (s, log, SubmitResult.ioError) ∧
    submitStep s log imageName t2 true false =
      ({ s with widgets := reset_answers s.widgets },
       log ++ [mkRecord t2 imageName s.widgets], SubmitResult.saved) := by
  constructor <;> rfl

/-- C4: `clamp` computes `max(0, min(index, size-1))`, lands in `[0, size-1]`
for any non-empty image set, and the stored index satisfies
`0 ≤ current_index < len(ImageSet)` after every interaction cycle on a
non-empty image set. -/
theorem clamp_bounds_and_index_invariant :
    (∀ (i : Int) (n : Nat), clamp i n = max 0 (min i ((n : Int) - 1))) ∧
    (∀ (i : Int) (n : Nat), 0 < n → 0 ≤ clamp i n ∧ clamp i n < n) ∧
    (∀ (names : List String) (s : SessionState) (log : List Record) (inp : StepInput),
      names ≠ [] →
      0 ≤ (stepCycle names s log inp).1.current_index ∧
      (stepCycle names s log inp).1.current_index < names.length) := by
  refine ⟨fun i n => rfl, fun i n hn => clamp_mem hn, ?_⟩
  intro names s log inp h
  rw [stepCycle_index]
  exact navCycle_mem names s.current_index inp.nav h

/-- Witness for C4 at a clamp of a stale index and one concrete cycle. -/
theorem clamp_bounds_and_index_invariant_witness :
    (0 < 2 ∧ 0 ≤ clamp 7 2 ∧ clamp 7 2 < 2) ∧
    ((["a.png", "b.jpg"] : List String) ≠ [] ∧
      0 ≤ (stepCycle ["a.png", "b.jpg"] initState []
        ⟨"images", ⟨false, true, none⟩, [], false, false, 0⟩).1.current_index ∧
      (stepCycle ["a.png", "b.jpg"] initState []
        ⟨"images", ⟨false, true, none⟩, [], false, false, 0⟩).1.current_index < 2) :=
  ⟨⟨by decide, clamp_bounds_and_index_invariant.2.1 7 2 (by decide)⟩,
   ⟨by decide, clamp_bounds_and_index_invariant.2.2 ["a.png", "b.jpg"] initState []
      ⟨"images", ⟨false, true, none⟩, [], false, false, 0⟩ (by decide)⟩⟩

/-- C7: the Prev button body decrements exactly by one on a positive index
and is a no-op at index 0; the Next button body increments exactly by one
below the last index and is a no-op at the last index. -/
theorem prev_next_boundary :
    (∀ i : Int, 0 < i → prevOp i = i - 1) ∧
    prevOp 0 = 0 ∧
    (∀ (i : Int) (n : Nat), i < (n : Int) - 1 → nextOp i n = i + 1) ∧
    (∀ n : Nat, nextOp ((n : Int) - 1) n = (n : Int) - 1) := by
  refine ⟨?_, rfl, ?_, ?_⟩
  · intro i h
    simp [prevOp, h]
  · intro i n h
    simp [nextOp, h]
  · intro n
    simp [nextOp]

/-- Witness for C7 at index 2 of a 5-image set. -/
theorem prev_next_boundary_witness :
    ((0 : Int) < 2 ∧ prevOp 2 = 1) ∧
    ((2 : Int) < (5 : Nat) - 1 ∧ nextOp 2 5 = 3) :=
  ⟨⟨by decide, prev_next_boundary.1 2 (by decide)⟩,
   ⟨by decide, prev_next_boundary.2.2.1 2 5 (by decide)⟩⟩

/-- C8: a successful submit clears the AnswerSet but does not move the
navigation: `current_index` and the recorded displayed-image identifier are
unchanged. -/
theorem submit_success_keeps_position (s : SessionState) (log : List Record)
    (imageName : String) (t : Nat) :
    answerSet (submitStep s log imageName t true false).1.widgets = (fun _ => none) ∧
    (submitStep s log imageName t true false).1.current_index = s.current_index ∧
    (submitStep s log imageName t true false).1.last_image_name = s.last_image_name := by
  exact ⟨answerSet_reset s.widgets, rfl, rfl⟩

/-- C2: every successful submit appends exactly one new row to the log, its
`image_filename` is the currently displayed image's identifier and its
timestamp is the rerun's clock reading; over a whole session whose clock
readings are non-decreasing, the logged timestamps are non-decreasing. -/
theorem submit_appends_row_and_timestamps_monotone :
    (∀ (names : List String) (s : SessionState) (log : List Record) (inp : StepInput),
      inp.submitClicked = true → inp.ioFail = false →
      ∃ r, (stepCycle names s log inp).2 = log ++ [r] ∧
        (stepCycle names s log inp).2.length = log.length + 1 ∧
        r.image_filename = displayedImage names s.current_index inp.nav ∧
        r.timestamp = inp.time) ∧
    (∀ (d : Bool) (entries : List DirEntry) (s : SessionState) (steps : List StepInput),
      List.Pairwise (· ≤ ·) (steps.map (·.time)) →
      List.Pairwise (· ≤ ·)
        (((runSession d entries s [] steps).2).map (·.timestamp))) := by
  constructor
  · intro names s log inp hc hio
    simp only [stepCycle, submitStep, hc, hio, save_evaluation, if_true, if_false,
      Bool.false_eq_true, ite_true, ite_false]
    exact ⟨_, rfl, by simp, rfl, rfl⟩
  · intro d entries s steps hsteps
    exact runSession_pairwise d entries steps s [] hsteps (by simp) (by simp)

/-- Witness for C2: one concrete submit on `b.jpg`, and a two-interaction
session with clock readings 1 then 2. -/
theorem submit_appends_row_and_timestamps_monotone_witness :
    ((⟨"images", ⟨false, false, some "b.jpg"⟩, [], true, false, 7⟩ :
        StepInput).submitClicked = true ∧
      (⟨"images", ⟨false, false, some "b.jpg"⟩, [], true, false, 7⟩ :
        StepInput).ioFail = false ∧
      ∃ r, (stepCycle ["a.png", "b.jpg"] initState []
          ⟨"images", ⟨false, false, some "b.jpg"⟩, [], true, false, 7⟩).2 = [] ++ [r] ∧
        (stepCycle ["a.png", "b.jpg"] initState []
          ⟨"images", ⟨false, false, some "b.jpg"⟩, [], true, false, 7⟩).2.length = 0 + 1 ∧
        r.image_filename =
          displayedImage ["a.png", "b.jpg"] 0 ⟨false, false, some "b.jpg"⟩ ∧
        r.timestamp = 7) ∧
    (List.Pairwise (· ≤ ·)
        ((([⟨"images", ⟨false, false, none⟩, [], true, false, 1⟩,
            ⟨"images", ⟨false, true, none⟩, [], true, false, 2⟩] :
          List StepInput).map (·.time))) ∧
      List.Pairwise (· ≤ ·)
        (((runSession true [⟨"a.png", true⟩, ⟨"b.jpg", true⟩] initState []
            [⟨"images", ⟨false, false, none⟩, [], true, false, 1⟩,
             ⟨"images", ⟨false, true, none⟩, [], true, false, 2⟩]).2).map
          (·.timestamp))) :=
  ⟨⟨rfl, rfl,
    submit_appends_row_and_timestamps_monotone.1 ["a.png", "b.jpg"] initState []
      ⟨"images", ⟨false, false, some "b.jpg"⟩, [], true, false, 7⟩ rfl rfl⟩,
   ⟨by decide,
    submit_appends_row_and_timestamps_monotone.2 true [⟨"a.png", true⟩, ⟨"b.jpg", true⟩]
      initState
      [⟨"images", ⟨false, false, none⟩, [], true, false, 1⟩,
       ⟨"images", ⟨false, true, none⟩, [], true, false, 2⟩] (by decide)⟩⟩

/-- C5: the jump assignment sends the index to exactly the selected name's
position in the image list (the unique one on a duplicate-free listing);
an absent name makes the lookup fail — the spec's `UnknownImage` — and the
navigation cycle then leaves the index exactly where the buttons left it. -/
theorem jumpTo_position_or_unknown_image :
    (∀ (names : List String) (name : String) (j : Nat),
      names.Nodup → names[j]? = some name → jumpTo names name = .ok (j : Int)) ∧
    (∀ (names : List String) (name : String), name ∈ names →
      ∃ j : Nat, jumpTo names name = .ok (j : Int) ∧ names[j]? = some name) ∧
    (∀ (names : List String) (name : String), name ∉ names →
      jumpTo names name = .error NavError.UnknownImage) ∧
    (∀ (names : List String) (i : Int) (inp : NavInput) (name : String),
      inp.jumpSelection = some name → name ∉ names →
      navCycle names i inp = navButtons names i inp) := by
  refine ⟨?_, ?_, ?_, ?_⟩
  · intro names name j hd hj
    simp [jumpTo, pyListIndex_nodup hd hj]
  · intro names name hmem
    obtain ⟨j, hj⟩ := pyListIndex_of_mem hmem
    obtain ⟨_, hget⟩ := pyListIndex_some hj
    exact ⟨j, by simp [jumpTo, hj], hget⟩
  · intro names name hmem
    simp [jumpTo, pyListIndex_of_not_mem hmem]
  · intro names i inp name hsel hmem
    simp [navCycle, hsel, pyListIndex_of_not_mem hmem]

/-- Witness for C5: jump to `b.jpg` in a two-image set, and a failing jump
to an absent name. -/
theorem jumpTo_position_or_unknown_image_witness :
    ((["a.png", "b.jpg"] : List String).Nodup ∧
      (["a.png", "b.jpg"] : List String)[1]? = some "b.jpg" ∧
      jumpTo ["a.png", "b.jpg"] "b.jpg" = .ok ((1 : Nat) : Int)) ∧
    ("zzz" ∉ (["a.png", "b.jpg"] : List String) ∧
      jumpTo ["a.png", "b.jpg"] "zzz" = .error NavError.UnknownImage) ∧
    ((⟨false, false, some "zzz"⟩ : NavInput).jumpSelection = some "zzz" ∧
      navCycle ["a.png", "b.jpg"] 0 ⟨false, false, some "zzz"⟩ =
        navButtons ["a.png", "b.jpg"] 0 ⟨false, false, some "zzz"⟩) :=
  ⟨⟨by decide, by decide,
    jumpTo_position_or_unknown_image.1 ["a.png", "b.jpg"] "b.jpg" 1 (by decide) (by decide)⟩,
   ⟨by decide,
    jumpTo_position_or_unknown_image.2.2.1 ["a.png", "b.jpg"] "zzz" (by decide)⟩,
   ⟨rfl,
    jumpTo_position_or_unknown_image.2.2.2 ["a.png", "b.jpg"] 0
      ⟨false, false, some "zzz"⟩ "zzz" rfl (by decide)⟩⟩

/-- C6: loading fails with `DirectoryNotFound` when the path is not a
directory, fails with `EmptyImageSet` when no entry is a file with an
accepted extension (matched case-insensitively), and otherwise returns the
matching file names sorted; on either failure the rerun stops — only the
directory text-box assignment survives, the answers and the log cannot
change. -/
theorem load_errors_and_sorted_listing :
    (∀ entries : List DirEntry,
      loadImages false entries = .error NavError.DirectoryNotFound) ∧
    (∀ e : DirEntry, matchesExt e = true ↔
      (e.isFile = true ∧ (pyLower (pySuffix e.name) = ".png" ∨
        pyLower (pySuffix e.name) = ".jpg" ∨ pyLower (pySuffix e.name) = ".jpeg"))) ∧
    (∀ entries : List DirEntry, entries.filter matchesExt = [] →
      loadImages true entries = .error NavError.EmptyImageSet) ∧
    (∀ entries : List DirEntry, entries.filter matchesExt ≠ [] →
      ∃ names, loadImages true entries = .ok names ∧
        names.Perm ((entries.filter matchesExt).map (·.name)) ∧
        List.Sorted (· ≤ ·) names) ∧
    (∀ (d : Bool) (entries : List DirEntry) (s : SessionState) (log : List Record)
      (inp : StepInput) (e : NavError), loadImages d entries = .error e →
      renderCycle d entries s log inp = ({ s with image_dir := inp.dirInput }, log)) := by
  refine ⟨fun entries => rfl, ?_, ?_, ?_, ?_⟩
  · intro e
    simp [matchesExt, IMG_EXTS]
  · intro entries h
    have hnil : get_image_files entries = [] := (get_image_files_eq_nil entries).mpr h
    simp [loadImages, hnil]
  · intro entries h
    have hne : get_image_files entries ≠ [] :=
      fun hn => h ((get_image_files_eq_nil entries).mp hn)
    refine ⟨get_image_files entries, ?_, get_image_files_perm entries,
      get_image_files_sorted entries⟩
    simp [loadImages, List.isEmpty_iff, hne]
  · intro d entries s log inp e h
    simp [renderCycle, h]

/-- Witness for C6: an empty directory, a directory with one matching file
among decoys, and a halted rerun on a missing directory. -/
theorem load_errors_and_sorted_listing_witness :
    (matchesExt ⟨"x.PNG", true⟩ = true ↔
      ((⟨"x.PNG", true⟩ : DirEntry).isFile = true ∧
        (pyLower (pySuffix "x.PNG") = ".png" ∨ pyLower (pySuffix "x.PNG") = ".jpg" ∨
          pyLower (pySuffix "x.PNG") = ".jpeg"))) ∧
    (([⟨"notes.txt", true⟩] : List DirEntry).filter matchesExt = [] ∧
      loadImages true [⟨"notes.txt", true⟩] = .error NavError.EmptyImageSet) ∧
    (([⟨"b.jpg", true⟩, ⟨"a.PNG", true⟩, ⟨"notes.txt", true⟩] :
        List DirEntry).filter matchesExt ≠ [] ∧
      ∃ names, loadImages true [⟨"b.jpg", true⟩, ⟨"a.PNG", true⟩, ⟨"notes.txt", true⟩] =
          .ok names ∧
        names.Perm ((([⟨"b.jpg", true⟩, ⟨"a.PNG", true⟩, ⟨"notes.txt", true⟩] :
          List DirEntry).filter matchesExt).map (·.name)) ∧
        List.Sorted (· ≤ ·) names) ∧
    (loadImages false [] = .error NavError.DirectoryNotFound ∧
      renderCycle false [] initState [] ⟨"missing", ⟨false, false, none⟩, [], true, false, 0⟩ =
        ({ initState with image_dir := "missing" }, [])) :=
  ⟨load_errors_and_sorted_listing.2.1 ⟨"x.PNG", true⟩,
   ⟨by decide, load_errors_and_sorted_listing.2.2.1 [⟨"notes.txt", true⟩] (by decide)⟩,
   ⟨by decide,
    load_errors_and_sorted_listing.2.2.2.1
      [⟨"b.jpg", true⟩, ⟨"a.PNG", true⟩, ⟨"notes.txt", true⟩] (by decide)⟩,
   ⟨rfl,
    load_errors_and_sorted_listing.2.2.2.2 false [] initState []
      ⟨"missing", ⟨false, false, none⟩, [], true, false, 0⟩ NavError.DirectoryNotFound rfl⟩⟩

/-- C9: a multi-select answer is flattened to the single string obtained by
joining its elements, in selection order, with the fixed delimiter
`"; "` — the standard delimiter join — and the submit record stores exactly
that string; `Sharpness` then `Contrast` flatten to
`"Sharpness; Contrast"`. -/
theorem multiselect_flatten_join :
    pyJoin "; " ["Sharpness", "Contrast"] = "Sharpness; Contrast" ∧
    (∀ l : List String, pyJoin "; " l = String.intercalate "; " l) ∧
    (∀ (t : Nat) (img : String) (w : String → Option Value) (l : List String),
      w "aspects_better" = some (Value.strList l) →
      ("aspects_better", Value.str (pyJoin "; " l)) ∈ (mkRecord t img w).fields) := by
  refine ⟨rfl, fun l => pyJoin_eq_intercalate _ l, ?_⟩
  intro t img w l h
  simp [mkRecord, getStrList, h]

/-- Witness for C9: the record of a state whose multiselect holds
`Sharpness` then `Contrast`. -/
theorem multiselect_flatten_join_witness :
    ((fun k => if k = "aspects_better"
        then some (Value.strList ["Sharpness", "Contrast"]) else none) "aspects_better" =
      some (Value.strList ["Sharpness", "Contrast"])) ∧
    ("aspects_better", Value.str (pyJoin "; " ["Sharpness", "Contrast"])) ∈
      (mkRecord 3 "a.png" (fun k => if k = "aspects_better"
        then some (Value.strList ["Sharpness", "Contrast"]) else none)).fields :=
  ⟨rfl,
   multiselect_flatten_join.2.2 3 "a.png"
     (fun k => if k = "aspects_better"
       then some (Value.strList ["Sharpness", "Contrast"]) else none)
     ["Sharpness", "Contrast"] rfl⟩

/-- C10: clearing answers removes exactly the keys of `ANSWER_KEYS`; the
respondent-metadata keys are not in that list, so their values survive the
image-change reset and the submit block unchanged. -/
theorem reset_scope_metadata_persist :
    (∀ (w : String → Option Value) (k : String), k ∈ ANSWER_KEYS →
      reset_answers w k = none) ∧
    (∀ (w : String → Option Value) (k : String), k ∉ ANSWER_KEYS →
      reset_answers w k = w k) ∧
    (∀ k ∈ METADATA_KEYS, k ∉ ANSWER_KEYS) ∧
    (∀ (s : SessionState) (imageName : String) (k : String), k ∈ METADATA_KEYS →
      (onImageDisplayed s imageName).widgets k = s.widgets k) ∧
    (∀ (s : SessionState) (log : List Record) (imageName : String) (t : Nat)
      (clicked ioFail : Bool) (k : String), k ∈ METADATA_KEYS →
      (submitStep s log imageName t clicked ioFail).1.widgets k = s.widgets k) := by
  have hmeta : ∀ k ∈ METADATA_KEYS, k ∉ ANSWER_KEYS := by
    intro k hk
    fin_cases hk <;> decide
  have hkeep : ∀ (w : String → Option Value) (k : String), k ∈ METADATA_KEYS →
      reset_answers w k = w k := by
    intro w k hk
    rw [reset_answers_apply, if_neg (hmeta k hk)]
  refine ⟨?_, ?_, hmeta, ?_, ?_⟩
  · intro w k hk
    rw [reset_answers_apply, if_pos hk]
  · intro w k hk
    rw [reset_answers_apply, if_neg hk]
  · intro s imageName k hk
    unfold onImageDisplayed
    split_ifs
    · exact hkeep s.widgets k hk
    · rfl
  · intro s log imageName t clicked ioFail k hk
    unfold submitStep
    split_ifs
    · rfl
    · exact hkeep s.widgets k hk
    · rfl

/-- Witness for C10: the respondent name survives an image change and a
successful submit, while `q1` is cleared. -/
theorem reset_scope_metadata_persist_witness :
    ("q1" ∈ ANSWER_KEYS ∧
      reset_answers (fun k => if k = "resp_name" then some (Value.str "Dr. X")
        else if k = "q1" then some (Value.int 5) else none) "q1" = none) ∧
    ("resp_name" ∈ METADATA_KEYS ∧
      (onImageDisplayed
          { current_index := 0, image_dir := "images", last_image_name := some "a.png",
            widgets := fun k => if k = "resp_name" then some (Value.str "Dr. X")
              else if k = "q1" then some (Value.int 5) else none } "b.jpg").widgets
          "resp_name" =
        (fun k => if k = "resp_name" then some (Value.str "Dr. X")
          else if k = "q1" then some (Value.int 5) else none) "resp_name" ∧
      (submitStep
          { current_index := 0, image_dir := "images", last_image_name := some "b.jpg",
            widgets := fun k => if k = "resp_name" then some (Value.str "Dr. X")
              else if k = "q1" then some (Value.int 5) else none } [] "b.jpg" 3 true
          false).1.widgets "resp_name" =
        (fun k => if k = "resp_name" then some (Value.str "Dr. X")
          else if k = "q1" then some (Value.int 5) else none) "resp_name") :=
  ⟨⟨by decide, reset_scope_metadata_persist.1 _ "q1" (by decide)⟩,
   ⟨by decide,
    reset_scope_metadata_persist.2.2.2.1 _ "b.jpg" "resp_name" (by decide),
    reset_scope_metadata_persist.2.2.2.2 _ [] "b.jpg" 3 true false "resp_name" (by decide)⟩⟩

end PanoEval
